import Mathlib

set_option maxRecDepth 4000

/-!
Verification development for the RedLens scrape-progress and batch-collection
engine (src/red_lens/pipeline.py, src/red_lens/db.py,
src/red_lens/test_timeout_calculation.py).

The SQLite store is shallowly embedded as in-memory lists kept in table-scan
(rowid, i.e. insertion) order.  Pure functions of the source become Lean
functions; the external crawler subprocess is abstracted as an outcome value
(run failed / no result file / result file with a list of cleaned notes),
which is exactly the information the pipeline code branches on.
-/

namespace RedLens

/-- Row of the `notes` table (db.py, init_db).  The `rowid` ordering of SQLite
is modelled by the position in the list `DB.notes`.  Engagement counters are
non-negative integers.  Timestamps and urls are opaque strings. -/
structure Note where
  note_id : String
  user_id : String
  title : String
  desc : String
  type : String
  likes : Nat
  collects : Nat
  comments : Nat
  create_time : String
  cover_url : String
  note_url : String
deriving DecidableEq

/-- Row of the `bloggers` table (db.py, init_db), restricted to the columns the
pipeline reads or writes.  `failure_reason` is nullable. -/
structure Blogger where
  user_id : String
  nickname : String
  status : String
  current_fans : Nat
  notes_collected : Nat
  notes_target : Nat
  scrape_status : String
  failure_reason : Option String
deriving DecidableEq

/-- The persistent store: the two tables relevant to the core, each in
table-scan order. -/
structure DB where
  bloggers : List Blogger
  notes : List Note
deriving DecidableEq

/-- NoteDB.insert_note (db.py 505-533).  `INSERT OR REPLACE INTO notes` keyed
by the primary key `note_id`: a conflicting row is deleted and the new row is
inserted with a fresh rowid, hence it appears at the end of table-scan order.
The `CHECK(type IN ('video','image'))` constraint makes the insert raise (the
function then returns False and changes nothing) for other type values; the
pipeline only ever passes "image" or "video" (clean_note_data). -/
def insert_note (db : DB) (n : Note) : DB × Bool :=
  if n.type = "video" ∨ n.type = "image" then
    ({ db with notes := (db.notes.filter (fun m => m.note_id != n.note_id)) ++ [n] }, true)
  else
    (db, false)

/-- NoteDB.count_notes_by_user (db.py 619-628): `SELECT COUNT(*) FROM notes
WHERE user_id = ?`. -/
def count_notes_by_user (db : DB) (uid : String) : Nat :=
  (db.notes.filter (fun n => n.user_id == uid)).length

/-- NoteDB.get_note_ids_by_user (db.py 630-648): `SELECT note_id FROM notes
WHERE user_id = ?` with no ORDER BY, so rows come back in table-scan
(insertion) order. -/
def get_note_ids_by_user (db : DB) (uid : String) : List String :=
  (db.notes.filter (fun n => n.user_id == uid)).map (fun n => n.note_id)

/-- BloggerDB.get_blogger (db.py 178-185): first row matching the user id. -/
def get_blogger (db : DB) (uid : String) : Option Blogger :=
  db.bloggers.find? (fun b => b.user_id == uid)

/-- Progress record returned by BloggerDB.get_scrape_progress.  The
`last_scrape_time` key is omitted: no caller in the verified claims reads it
(and the unknown-user branch of the source does not produce it at all). -/
structure ScrapeProgress where
  notes_collected : Nat
  notes_target : Nat
  scrape_status : String
  failure_reason : Option String
deriving DecidableEq

/-- BloggerDB.get_scrape_progress (db.py 446-472): a default record for an
unknown user, otherwise the stored columns. -/
def get_scrape_progress (db : DB) (uid : String) : ScrapeProgress :=
  match get_blogger db uid with
  | none =>
      { notes_collected := 0, notes_target := 100,
        scrape_status := "not_started", failure_reason := none }
  | some b =>
      { notes_collected := b.notes_collected, notes_target := b.notes_target,
        scrape_status := b.scrape_status, failure_reason := b.failure_reason }

/-- BloggerDB.update_scrape_progress (db.py 365-402): `UPDATE bloggers SET
notes_collected, notes_target, scrape_status, failure_reason WHERE
user_id = ?`.  A missing user id leaves the store unchanged. -/
def update_scrape_progress (db : DB) (uid : String) (collected target : Nat)
    (status : String) (reason : Option String) : DB :=
  { db with bloggers := db.bloggers.map (fun b =>
      if b.user_id == uid then
        { b with notes_collected := collected, notes_target := target,
                 scrape_status := status, failure_reason := reason }
      else b) }

/-- BloggerDB.update_status (db.py 259-273): `UPDATE bloggers SET status = ?
WHERE user_id = ?`. -/
def update_status (db : DB) (uid : String) (status : String) : DB :=
  { db with bloggers := db.bloggers.map (fun b =>
      if b.user_id == uid then { b with status := status } else b) }

/-- BloggerDB.update_fans (db.py 275-289). -/
def update_fans (db : DB) (uid : String) (fans : Nat) : DB :=
  { db with bloggers := db.bloggers.map (fun b =>
      if b.user_id == uid then { b with current_fans := fans } else b) }

/-- calculate_timeout (test_timeout_calculation.py 8-14).  The source computes
`int(total_estimated_time * 1.5)`; `total_estimated_time = n * (m * 4 + 60)`
is always even, so the float product is the exact integer
`total_estimated_time * 3 / 2` (for values past the clamp ceiling the float
rounding is absorbed by `min _ 7200`). -/
def calculate_timeout (num_creators max_notes : Nat) : Nat :=
  let estimated_time_per_creator := max_notes * 4 + 60
  let total_estimated_time := num_creators * estimated_time_per_creator
  let timeout_seconds := total_estimated_time * 3 / 2
  max 300 (min timeout_seconds 7200)

/-- Timeout computation inlined in _run_mediacrawler_for_creators_single_batch
(pipeline.py 300-307); same arithmetic as calculate_timeout, applied to the
length of the user id list of the batch. -/
def single_batch_timeout (num_user_ids max_notes : Nat) : Nat :=
  let estimated_time_per_creator := max_notes * 4 + 60
  let total_estimated_time := num_user_ids * estimated_time_per_creator
  let timeout_seconds := total_estimated_time * 3 / 2
  max 300 (min timeout_seconds 7200)

/-- Modelled from the spec wording of claim C6: `clamp(x, lo, hi)`. -/
def specClamp (x lo hi : Nat) : Nat := max lo (min x hi)

/-- Slicing loop of run_mediacrawler_for_creators_batch (pipeline.py 183-185):
`for i in range(0, len(user_ids), batch_size): batch = user_ids[i:i+batch_size]`.
Each iteration takes the next `batch_size` elements. -/
def sliceChunks {α : Type} (batch_size : Nat) (l : List α) : List (List α) :=
  if h : l.length = 0 ∨ batch_size = 0 then []
  else l.take batch_size :: sliceChunks batch_size (l.drop batch_size)
termination_by l.length
decreasing_by
  simp only [List.length_drop]
  push_neg at h
  omega

/-- Batch structure of run_mediacrawler_for_creators_batch (pipeline.py
174-202): an empty id list runs nothing; a list longer than `batch_size` is
split by the slicing loop; otherwise a single batch holds the whole list. -/
def run_mediacrawler_batches (user_ids : List String) (batch_size : Nat) :
    List (List String) :=
  if user_ids = [] then []
  else if user_ids.length > batch_size then sliceChunks batch_size user_ids
  else [user_ids]

/-- Truncation of one exclusion list before it is written into the crawler
config (pipeline.py 130): `note_ids[:1000] if len(note_ids) > 1000 else
note_ids`, i.e. the first 1000 identifiers in the order the store returned
them. -/
def truncate_exclude_note_ids (note_ids : List String) : List String :=
  note_ids.take 1000

/-- Statistics dictionary of scrape_pending_bloggers (pipeline.py 561-567). -/
structure Stats where
  scraped : Nat
  failed : Nat
  notes_added : Nat
  skipped_low_fans : Nat
  resumed : Nat
deriving DecidableEq

/-- Statistics dictionary of scrape_specific_bloggers (pipeline.py 1061-1066). -/
structure ResumeStats where
  scraped : Nat
  failed : Nat
  notes_added : Nat
  resumed : Nat
deriving DecidableEq

/-- Result of Phase 1 of scrape_pending_bloggers.  `fans_lookups` counts the
calls of fetch_creators_fans_batch, each of which costs one external crawler
invocation. -/
structure Phase1Result where
  qualified : List Blogger
  skipped_low_fans : Nat
  fans_lookups : Nat
  db : DB
deriving DecidableEq

/-- Phase 1 of scrape_pending_bloggers (pipeline.py 569-615): when min_fans is
positive one batched fans lookup runs, each blogger gets its fans count
persisted, bloggers below the threshold are marked with status error and
counted in skipped_low_fans, the rest qualify in order; when min_fans is zero
every target blogger qualifies and no lookup happens.  The external lookup
result is the `fans_dict` argument (ids the lookup missed are already
defaulted to 0 by fetch_creators_fans_batch, pipeline.py 70-73). -/
def phase1_filter (db : DB) (target_bloggers : List Blogger) (min_fans : Nat)
    (fans_dict : String → Nat) : Phase1Result :=
  if min_fans > 0 then
    target_bloggers.foldl (fun acc b =>
      let fans_count := fans_dict b.user_id
      let db1 := update_fans acc.db b.user_id fans_count
      if fans_count < min_fans then
        { acc with db := update_status db1 b.user_id "error",
                   skipped_low_fans := acc.skipped_low_fans + 1 }
      else
        { acc with db := db1, qualified := acc.qualified ++ [b] })
      { qualified := [], skipped_low_fans := 0, fans_lookups := 1, db := db }
  else
    { qualified := target_bloggers, skipped_low_fans := 0, fans_lookups := 0, db := db }

/-- Abstracted outcome of one _run_mediacrawler_with_exclude_filter call plus
the result-file search: the run returned False (non-zero return code, timeout
or process error, pipeline.py 350-373); or it returned True but neither a
creator_contents nor a search_contents file exists (pipeline.py 791-800 and
1159-1167); or the freshest file loads and cleans to a list of notes. -/
inductive CrawlerOutcome where
  | failedRun : CrawlerOutcome
  | noResultFile : CrawlerOutcome
  | resultFile : List Note → CrawlerOutcome

/-- Grouping of the loaded notes by user id (pipeline.py 812-817 and
1186-1192): the dict keeps notes in file order, and a user id is a key of the
dict iff at least one note carries it. -/
def notes_for_user (all_notes : List Note) (uid : String) : List Note :=
  all_notes.filter (fun n => n.user_id == uid)

/-- One iteration of the note-saving loop (pipeline.py 853-873): insert the
note, add one to the tally when the insert reports success. -/
def insert_note_step (acc : DB × Nat) (n : Note) : DB × Nat :=
  let r := insert_note acc.1 n
  (r.1, acc.2 + (if r.2 then 1 else 0))

/-- The note-saving loop: insert every note of the entity, counting successful
inserts (`notes_added`). -/
def insert_notes_fold (db : DB) (notes : List Note) : DB × Nat :=
  notes.foldl insert_note_step (db, 0)

/-- State threaded through the per-blogger loop of scrape_pending_bloggers. -/
structure PendingStep where
  db : DB
  stats : Stats
deriving DecidableEq

/-- State threaded through the per-blogger loop of scrape_specific_bloggers. -/
structure SpecificStep where
  db : DB
  stats : ResumeStats
deriving DecidableEq

/-- Store state after one entity of scrape_pending_bloggers was marked
in_progress and its returned notes were merged (pipeline.py 841-876): the
first component is the store after the insert loop, the second the
`notes_added` tally. -/
def pending_merged (max_notes : Nat) (all_notes : List Note)
    (s : PendingStep) (b : Blogger) : DB × Nat :=
  insert_notes_fold
    (update_scrape_progress s.db b.user_id
      (get_scrape_progress s.db b.user_id).notes_collected max_notes "in_progress" none)
    (notes_for_user all_notes b.user_id)

/-- Store state after one entity of scrape_specific_bloggers had its returned
notes merged (pipeline.py 1219-1242). -/
def specific_merged (all_notes : List Note) (s : SpecificStep) (b : Blogger) : DB × Nat :=
  insert_notes_fold s.db (notes_for_user all_notes b.user_id)

/-- Per-blogger reconciliation of scrape_pending_bloggers for a successful run
(pipeline.py 820-906, without the inter-blogger sleep): skip entities already
at target; count a resume; mark in_progress; entities absent from the result
file become partial with reason No notes in JSON; otherwise merge the notes,
re-derive the stored count, and classify: reached target -> completed; fewer
new notes than still needed -> completed with the target lowered to the
actual stored count; otherwise partial. -/
def process_blogger_pending (max_notes : Nat) (all_notes : List Note)
    (s : PendingStep) (b : Blogger) : PendingStep :=
  let uid := b.user_id
  let progress := get_scrape_progress s.db uid
  let notes_collected := progress.notes_collected
  let is_resuming := progress.scrape_status == "partial"
  if notes_collected ≥ max_notes then
    { s with db := update_scrape_progress s.db uid notes_collected max_notes "completed" none }
  else
    let stats1 := if is_resuming then { s.stats with resumed := s.stats.resumed + 1 } else s.stats
    let user_notes := notes_for_user all_notes uid
    if user_notes = [] then
      { db := update_scrape_progress
          (update_scrape_progress s.db uid notes_collected max_notes "in_progress" none)
          uid notes_collected max_notes "partial" (some "No notes in JSON"),
        stats := { stats1 with failed := stats1.failed + 1 } }
    else
      let ins := pending_merged max_notes all_notes s b
      let total_collected := count_notes_by_user ins.1 uid
      let remaining_needed := max_notes - notes_collected
      let res : PendingStep :=
        if total_collected ≥ max_notes then
          { db := update_status
              (update_scrape_progress ins.1 uid total_collected max_notes "completed" none)
              uid "scraped",
            stats := { stats1 with scraped := stats1.scraped + 1 } }
        else if user_notes.length < remaining_needed then
          { db := update_status
              (update_scrape_progress ins.1 uid total_collected total_collected "completed" none)
              uid "scraped",
            stats := { stats1 with scraped := stats1.scraped + 1 } }
        else
          { db := update_scrape_progress ins.1 uid total_collected max_notes "partial" none,
            stats := stats1 }
      { res with stats := { res.stats with notes_added := res.stats.notes_added + ins.2 } }

/-- Per-blogger reconciliation of scrape_specific_bloggers (pipeline.py
1199-1265).  The in_progress marking already happened before the crawler ran.
Classification differs from the pending variant: the target is lowered and
the entity completed only when zero new notes arrived (unreachable for an
entity present in the result file, whose grouped list is non-empty); any
positive-but-short yield stays partial with the target unchanged. -/
def process_blogger_specific (max_notes : Nat) (all_notes : List Note)
    (s : SpecificStep) (b : Blogger) : SpecificStep :=
  let uid := b.user_id
  let progress := get_scrape_progress s.db uid
  let notes_collected := progress.notes_collected
  let user_notes := notes_for_user all_notes uid
  if user_notes = [] then
    { db := update_scrape_progress s.db uid notes_collected max_notes
        "partial" (some "No notes in JSON"),
      stats := { s.stats with failed := s.stats.failed + 1 } }
  else
    let ins := specific_merged all_notes s b
    let total_collected := count_notes_by_user ins.1 uid
    let res : SpecificStep :=
      if total_collected ≥ max_notes then
        { db := update_status
            (update_scrape_progress ins.1 uid total_collected max_notes "completed" none)
            uid "scraped",
          stats := { s.stats with scraped := s.stats.scraped + 1 } }
      else if user_notes.length = 0 then
        { db := update_status
            (update_scrape_progress ins.1 uid total_collected total_collected "completed" none)
            uid "scraped",
          stats := { s.stats with scraped := s.stats.scraped + 1 } }
      else
        { db := update_scrape_progress ins.1 uid total_collected max_notes "partial" none,
          stats := s.stats }
    { res with stats := { res.stats with notes_added := res.stats.notes_added + ins.2 } }

/-- Pre-run marking loop of scrape_pending_bloggers (pipeline.py 743-761):
every qualified blogger is set in_progress with its collected count kept and
the target set to max_notes.  The exclusion map built in the same loop only
feeds the crawler invocation, which is abstracted by CrawlerOutcome. -/
def mark_in_progress (db : DB) (bs : List Blogger) (max_notes : Nat) : DB :=
  bs.foldl (fun d b =>
    update_scrape_progress d b.user_id
      (get_scrape_progress d b.user_id).notes_collected max_notes "in_progress" none) db

/-- One iteration of the crawler-failure recovery loop of
scrape_pending_bloggers (pipeline.py 772-785). -/
def pending_fail_step (max_notes : Nat) (acc : Stats × DB) (b : Blogger) : Stats × DB :=
  ({ acc.1 with failed := acc.1.failed + 1 },
   update_scrape_progress acc.2 b.user_id
     (get_scrape_progress acc.2 b.user_id).notes_collected max_notes
     "partial" (some "MediaCrawler batch failed"))

/-- One iteration of the no-result-file loop of scrape_pending_bloggers
(pipeline.py 800-805): the blogger row status column is set to error; the
scrape_status column is not touched. -/
def pending_nofile_step (acc : Stats × DB) (b : Blogger) : Stats × DB :=
  ({ acc.1 with failed := acc.1.failed + 1 }, update_status acc.2 b.user_id "error")

/-- Phase 2 of scrape_pending_bloggers with use_existing_data disabled
(pipeline.py 736-906), with the crawler run abstracted as an outcome. -/
def scrape_pending_phase2 (db : DB) (qualified_bloggers : List Blogger)
    (max_notes : Nat) (stats : Stats) (outcome : CrawlerOutcome) : Stats × DB :=
  let db0 := mark_in_progress db qualified_bloggers max_notes
  match outcome with
  | .failedRun => qualified_bloggers.foldl (pending_fail_step max_notes) (stats, db0)
  | .noResultFile => qualified_bloggers.foldl pending_nofile_step (stats, db0)
  | .resultFile all_notes =>
      let r := qualified_bloggers.foldl (process_blogger_pending max_notes all_notes)
        { db := db0, stats := stats }
      (r.stats, r.db)

/-- Pre-run loop of scrape_specific_bloggers (pipeline.py 1092-1118): compute
the maximum remaining need over the targets (`max(0, max_notes - collected)`
per blogger) and mark every target in_progress. -/
def specific_pre (db : DB) (target_bloggers : List Blogger) (max_notes : Nat) : Nat × DB :=
  target_bloggers.foldl (fun acc b =>
    let progress := get_scrape_progress acc.2 b.user_id
    let remaining_notes := max_notes - progress.notes_collected
    (max acc.1 remaining_notes,
     update_scrape_progress acc.2 b.user_id progress.notes_collected max_notes
       "in_progress" none)) (0, db)

/-- One iteration of the crawler-failure recovery loop of
scrape_specific_bloggers (pipeline.py 1140-1153). -/
def specific_fail_step (max_notes : Nat) (acc : ResumeStats × DB) (b : Blogger) :
    ResumeStats × DB :=
  ({ acc.1 with failed := acc.1.failed + 1 },
   update_scrape_progress acc.2 b.user_id
     (get_scrape_progress acc.2 b.user_id).notes_collected max_notes
     "partial" (some "MediaCrawler batch failed"))

/-- One iteration of the no-result-file loop of scrape_specific_bloggers
(pipeline.py 1167-1179). -/
def specific_nofile_step (max_notes : Nat) (acc : ResumeStats × DB) (b : Blogger) :
    ResumeStats × DB :=
  ({ acc.1 with failed := acc.1.failed + 1 },
   update_scrape_progress acc.2 b.user_id
     (get_scrape_progress acc.2 b.user_id).notes_collected max_notes
     "partial" (some "No result file"))

/-- Core of scrape_specific_bloggers (pipeline.py 1087-1275) for targets
found in the store, with the crawler run abstracted as an outcome.  When no
target needs any note the crawler is never invoked and the outcome is
irrelevant. -/
def scrape_specific_run (db : DB) (target_bloggers : List Blogger) (max_notes : Nat)
    (stats : ResumeStats) (outcome : CrawlerOutcome) : ResumeStats × DB :=
  let pre := specific_pre db target_bloggers max_notes
  if pre.1 = 0 then (stats, pre.2)
  else
    match outcome with
    | .failedRun => target_bloggers.foldl (specific_fail_step max_notes) (stats, pre.2)
    | .noResultFile => target_bloggers.foldl (specific_nofile_step max_notes) (stats, pre.2)
    | .resultFile all_notes =>
        let r := target_bloggers.foldl (process_blogger_specific max_notes all_notes)
          { db := pre.2, stats := stats }
        (r.stats, r.db)

/-- Store component of the crawler-failure and no-result-file recovery loops
(pipeline.py 774-784, 1143-1152, 1169-1178): every blogger of the batch is
set partial with the given reason, its collected count kept and its target
set to max_notes. -/
def mark_batch_fail (max_notes : Nat) (reason : String) (d : DB) (qs : List Blogger) : DB :=
  qs.foldl (fun d' b => update_scrape_progress d' b.user_id
    (get_scrape_progress d' b.user_id).notes_collected max_notes
    "partial" (some reason)) d

/-- Store component of the no-result-file loop of scrape_pending_bloggers
(pipeline.py 802-804): every blogger of the batch has its status column set
to error. -/
def mark_batch_error (d : DB) (qs : List Blogger) : DB :=
  qs.foldl (fun d' b => update_status d' b.user_id "error") d

/-- Concrete one-blogger store shared by witnesses and counterexamples of the
batch-level claims. -/
def wBlogger : Blogger :=
  { user_id := "u1", nickname := "n", status := "pending", current_fans := 0,
    notes_collected := 0, notes_target := 100, scrape_status := "not_started",
    failure_reason := none }

/-- Store holding exactly wBlogger and no notes. -/
def wDB : DB := { bloggers := [wBlogger], notes := [] }

/-- Fresh Stats record. -/
def wStats : Stats :=
  { scraped := 0, failed := 0, notes_added := 0, skipped_low_fans := 0, resumed := 0 }

/-- Fresh ResumeStats record for a one-entity resume. -/
def wResumeStats : ResumeStats := { scraped := 0, failed := 0, notes_added := 0, resumed := 1 }

/-- A single cleaned note of wBlogger, as produced by clean_note_data. -/
def wNote : Note :=
  { note_id := "n1", user_id := "u1", title := "t", desc := "", type := "image",
    likes := 3, collects := 1, comments := 0, create_time := "2024-01-01 00:00:00",
    cover_url := "", note_url := "https://www.xiaohongshu.com/explore/n1" }

/-- 1001 notes of wBlogger in insertion order: note i carries the decimal
numeral of i as its id, so id 1000 belongs to the most recently stored note. -/
def bigNotes : List Note :=
  (List.range 1001).map (fun i =>
    { note_id := Nat.repr i, user_id := "u1", title := "", desc := "", type := "image",
      likes := 0, collects := 0, comments := 0, create_time := "", cover_url := "",
      note_url := "" })

/-- Store whose single blogger owns more stored notes than the exclusion-list
cap of 1000. -/
def bigDB : DB := { bloggers := [wBlogger], notes := bigNotes }

/-- A fresh note of wBlogger whose id (five characters) is longer than every
numeral id stored in bigNotes. -/
def wNoteLong : Note :=
  { note_id := "abcde", user_id := "u1", title := "", desc := "", type := "image",
    likes := 0, collects := 0, comments := 0, create_time := "", cover_url := "",
    note_url := "" }

end RedLens

namespace RedLens

lemma sliceChunks_nil {α : Type} (B : Nat) : sliceChunks B ([] : List α) = [] := by
  rw [sliceChunks]
  simp

lemma sliceChunks_cons {α : Type} {B : Nat} {l : List α} (hl : l ≠ []) (hB : B ≠ 0) :
    sliceChunks B l = l.take B :: sliceChunks B (l.drop B) := by
  rw [sliceChunks]
  rw [dif_neg]
  push_neg
  exact ⟨by have := List.length_pos.mpr hl; omega, hB⟩

lemma sliceChunks_join {α : Type} (B : Nat) (hB : 0 < B) (l : List α) :
    (sliceChunks B l).flatten = l := by
  generalize hn : l.length = n
  induction n using Nat.strong_induction_on generalizing l with
  | _ n ih =>
    by_cases hl : l = []
    · subst hl
      simp [sliceChunks_nil]
    · rw [sliceChunks_cons hl (by omega)]
      have hpos : 0 < l.length := List.length_pos.mpr hl
      rw [List.flatten_cons, ih (l.drop B).length (by simp [List.length_drop]; omega)
        (l.drop B) rfl]
      exact List.take_append_drop B l

lemma sliceChunks_length {α : Type} (B : Nat) (hB : 0 < B) (l : List α) :
    (sliceChunks B l).length = (l.length + B - 1) / B := by
  generalize hn : l.length = n
  induction n using Nat.strong_induction_on generalizing l with
  | _ n ih =>
    by_cases hl : l = []
    · subst hl
      simp only [List.length_nil] at hn
      subst hn
      rw [sliceChunks_nil]
      simp only [List.length_nil]
      rw [Nat.div_eq_of_lt (by omega)]
    · have hpos : 0 < l.length := List.length_pos.mpr hl
      rw [sliceChunks_cons hl (by omega)]
      rw [List.length_cons, ih (l.drop B).length (by simp [List.length_drop]; omega)
        (l.drop B) rfl]
      simp only [List.length_drop]
      subst hn
      by_cases hle : l.length ≤ B
      · have h1 : l.length - B = 0 := by omega
        rw [h1]
        have h2 : (0 + B - 1) / B = 0 := Nat.div_eq_of_lt (by omega)
        rw [h2]
        have h3 : (l.length + B - 1) / B = 1 := by
          apply Nat.div_eq_of_lt_le
          · omega
          · omega
        omega
      · have h1 : l.length - B + B - 1 = l.length - 1 := by omega
        have h2 : l.length + B - 1 = (l.length - 1) + B := by omega
        rw [h1, h2, Nat.add_div_right _ hB]

lemma sliceChunks_mem_length_le {α : Type} (B : Nat) (hB : 0 < B) (l : List α) :
    ∀ c ∈ sliceChunks B l, c.length ≤ B := by
  generalize hn : l.length = n
  induction n using Nat.strong_induction_on generalizing l with
  | _ n ih =>
    by_cases hl : l = []
    · subst hl
      rw [sliceChunks_nil]
      intro c hc
      exact absurd hc (List.not_mem_nil c)
    · have hpos : 0 < l.length := List.length_pos.mpr hl
      rw [sliceChunks_cons hl (by omega)]
      intro c hc
      rcases List.mem_cons.mp hc with h | h
      · subst h
        simp [List.length_take]
      · exact ih (l.drop B).length (by simp [List.length_drop]; omega) (l.drop B) rfl c h

lemma sliceChunks_dropLast_length {α : Type} (B : Nat) (hB : 0 < B) (l : List α) :
    ∀ c ∈ (sliceChunks B l).dropLast, c.length = B := by
  generalize hn : l.length = n
  induction n using Nat.strong_induction_on generalizing l with
  | _ n ih =>
    by_cases hl : l = []
    · subst hl
      rw [sliceChunks_nil]
      intro c hc
      exact absurd hc (List.not_mem_nil c)
    · have hpos : 0 < l.length := List.length_pos.mpr hl
      rw [sliceChunks_cons hl (by omega)]
      intro c hc
      by_cases hrest : sliceChunks B (l.drop B) = []
      · rw [hrest] at hc
        simp at hc
      · have hBlt : B < l.length := by
          by_contra hcon
          apply hrest
          have : l.drop B = [] := List.drop_eq_nil_of_le (by omega)
          rw [this]
          exact sliceChunks_nil B
        rw [List.dropLast_cons_of_ne_nil hrest] at hc
        rcases List.mem_cons.mp hc with h | h
        · subst h
          simp [List.length_take]
          omega
        · exact ih (l.drop B).length (by simp [List.length_drop]; omega) (l.drop B) rfl c h

/-- Claim C7: for a non-empty candidate list of length N and positive batch
size B, the batch planner yields exactly ceil(N/B) contiguous chunks whose
concatenation is the original list (order preserved, every identifier in
exactly one chunk), each chunk at most B long, and every chunk except possibly
the last exactly B long. -/
theorem C7_batch_partition (l : List String) (B : Nat) (hl : l ≠ []) (hB : 0 < B) :
    (run_mediacrawler_batches l B).length = (l.length + B - 1) / B
    ∧ (run_mediacrawler_batches l B).flatten = l
    ∧ (∀ c ∈ run_mediacrawler_batches l B, c.length ≤ B)
    ∧ (∀ c ∈ (run_mediacrawler_batches l B).dropLast, c.length = B) := by
  unfold run_mediacrawler_batches
  rw [if_neg hl]
  have hpos : 0 < l.length := List.length_pos.mpr hl
  by_cases hgt : l.length > B
  · rw [if_pos hgt]
    exact ⟨sliceChunks_length B hB l, sliceChunks_join B hB l,
      sliceChunks_mem_length_le B hB l, sliceChunks_dropLast_length B hB l⟩
  · rw [if_neg hgt]
    refine ⟨?_, by simp, ?_, ?_⟩
    · simp only [List.length_singleton]
      symm
      apply Nat.div_eq_of_lt_le
      · omega
      · omega
    · intro c hc
      rcases List.mem_singleton.mp hc with h
      subst h
      omega
    · intro c hc
      simp at hc

/-- Witness for C7 at the list [a, b, c] with batch size 2. -/
theorem C7_batch_partition_witness :
    (run_mediacrawler_batches ["a", "b", "c"] 2).length = (["a", "b", "c"].length + 2 - 1) / 2
    ∧ (run_mediacrawler_batches ["a", "b", "c"] 2).flatten = ["a", "b", "c"]
    ∧ (∀ c ∈ run_mediacrawler_batches ["a", "b", "c"] 2, c.length ≤ 2)
    ∧ (∀ c ∈ (run_mediacrawler_batches ["a", "b", "c"] 2).dropLast, c.length = 2) :=
  C7_batch_partition ["a", "b", "c"] 2 (by decide) (by decide)

/-- Claim C5: inserting the same note twice leaves exactly one stored row for
its note id, and the per-user count after the second insert equals the count
after the first insert (re-insertion never double counts).  The hypothesis is
the CHECK constraint on the type column, satisfied by every cleaned note. -/
theorem C5_insert_note_idempotent_count (db : DB) (n : Note)
    (h : n.type = "video" ∨ n.type = "image") :
    ((insert_note (insert_note db n).1 n).1.notes.filter
        (fun m => m.note_id == n.note_id)).length = 1
    ∧ count_notes_by_user (insert_note (insert_note db n).1 n).1 n.user_id
      = count_notes_by_user (insert_note db n).1 n.user_id := by
  have e1 : (insert_note db n).1.notes
      = db.notes.filter (fun m => m.note_id != n.note_id) ++ [n] := by
    unfold insert_note
    rw [if_pos h]
  have e2 : (insert_note (insert_note db n).1 n).1.notes
      = (insert_note db n).1.notes.filter (fun m => m.note_id != n.note_id) ++ [n] := by
    unfold insert_note
    rw [if_pos h]
  have efix : (insert_note db n).1.notes.filter (fun m => m.note_id != n.note_id)
      = db.notes.filter (fun m => m.note_id != n.note_id) := by
    rw [e1, List.filter_append]
    have hsingle : [n].filter (fun m => m.note_id != n.note_id) = [] := by
      simp
    rw [hsingle, List.append_nil, List.filter_filter]
    congr 1
    funext a
    rw [Bool.and_self]
  have enotes : (insert_note (insert_note db n).1 n).1.notes = (insert_note db n).1.notes := by
    rw [e2, efix, e1]
  constructor
  · rw [enotes, e1, List.filter_append]
    have hleft : (db.notes.filter (fun m => m.note_id != n.note_id)).filter
        (fun m => m.note_id == n.note_id) = [] := by
      rw [List.filter_filter]
      apply List.filter_eq_nil_iff.mpr
      intro a _
      simp only [Bool.and_eq_true, bne_iff_ne, ne_eq, beq_iff_eq]
      tauto
    rw [hleft]
    simp
  · unfold count_notes_by_user
    rw [enotes]

/-- Witness for C5 at a concrete image note inserted into the empty store. -/
theorem C5_insert_note_idempotent_count_witness :
    ((insert_note (insert_note { bloggers := [], notes := [] }
          { note_id := "n1", user_id := "u1", title := "", desc := "", type := "image",
            likes := 0, collects := 0, comments := 0, create_time := "", cover_url := "",
            note_url := "" }).1
        { note_id := "n1", user_id := "u1", title := "", desc := "", type := "image",
          likes := 0, collects := 0, comments := 0, create_time := "", cover_url := "",
          note_url := "" }).1.notes.filter (fun m => m.note_id == "n1")).length = 1
    ∧ count_notes_by_user (insert_note (insert_note { bloggers := [], notes := [] }
          { note_id := "n1", user_id := "u1", title := "", desc := "", type := "image",
            likes := 0, collects := 0, comments := 0, create_time := "", cover_url := "",
            note_url := "" }).1
        { note_id := "n1", user_id := "u1", title := "", desc := "", type := "image",
          likes := 0, collects := 0, comments := 0, create_time := "", cover_url := "",
          note_url := "" }).1 "u1"
      = count_notes_by_user (insert_note { bloggers := [], notes := [] }
          { note_id := "n1", user_id := "u1", title := "", desc := "", type := "image",
            likes := 0, collects := 0, comments := 0, create_time := "", cover_url := "",
            note_url := "" }).1 "u1" :=
  C5_insert_note_idempotent_count { bloggers := [], notes := [] }
    { note_id := "n1", user_id := "u1", title := "", desc := "", type := "image",
      likes := 0, collects := 0, comments := 0, create_time := "", cover_url := "",
      note_url := "" } (Or.inr rfl)

end RedLens

namespace RedLens

lemma notes_update_scrape_progress (d : DB) (u : String) (c t : Nat) (st : String)
    (r : Option String) : (update_scrape_progress d u c t st r).notes = d.notes := rfl

lemma notes_update_status (d : DB) (u st : String) : (update_status d u st).notes = d.notes := rfl

lemma bloggers_insert_note (d : DB) (n : Note) : (insert_note d n).1.bloggers = d.bloggers := by
  unfold insert_note
  split <;> rfl

lemma bloggers_insert_fold_go :
    ∀ (ns : List Note) (acc : DB × Nat),
      ((ns.foldl insert_note_step acc).1).bloggers = acc.1.bloggers := by
  intro ns
  induction ns with
  | nil => intro acc; rfl
  | cons n rest ih =>
    intro acc
    rw [List.foldl_cons, ih]
    exact bloggers_insert_note acc.1 n

lemma bloggers_insert_notes_fold (d : DB) (ns : List Note) :
    (insert_notes_fold d ns).1.bloggers = d.bloggers :=
  bloggers_insert_fold_go ns (d, 0)

lemma update_scrape_progress_mem_fields {d : DB} {u : String} {c t : Nat} {st : String}
    {r : Option String} {b' : Blogger}
    (hmem : b' ∈ (update_scrape_progress d u c t st r).bloggers) (hu : b'.user_id = u) :
    b'.notes_collected = c ∧ b'.notes_target = t ∧ b'.scrape_status = st
      ∧ b'.failure_reason = r := by
  unfold update_scrape_progress at hmem
  simp only [List.mem_map] at hmem
  obtain ⟨b0, hb0, hEq⟩ := hmem
  by_cases hm : (b0.user_id == u) = true
  · rw [if_pos hm] at hEq
    subst hEq
    exact ⟨rfl, rfl, rfl, rfl⟩
  · rw [if_neg hm] at hEq
    subst hEq
    exact absurd (beq_iff_eq.mpr hu) hm

lemma update_status_mem_fields {d : DB} {u st : String} {b' : Blogger}
    (hmem : b' ∈ (update_status d u st).bloggers) :
    ∃ b0 ∈ d.bloggers, b'.user_id = b0.user_id ∧ b'.notes_collected = b0.notes_collected
      ∧ b'.notes_target = b0.notes_target ∧ b'.scrape_status = b0.scrape_status
      ∧ b'.failure_reason = b0.failure_reason := by
  unfold update_status at hmem
  simp only [List.mem_map] at hmem
  obtain ⟨b0, hb0, hEq⟩ := hmem
  refine ⟨b0, hb0, ?_⟩
  by_cases hm : (b0.user_id == u) = true
  · rw [if_pos hm] at hEq
    subst hEq
    exact ⟨rfl, rfl, rfl, rfl, rfl⟩
  · rw [if_neg hm] at hEq
    subst hEq
    exact ⟨rfl, rfl, rfl, rfl, rfl⟩

lemma exists_uid_update_scrape_progress {d : DB} {u0 : String}
    (h : ∃ b ∈ d.bloggers, b.user_id = u0) (u : String) (c t : Nat) (st : String)
    (r : Option String) :
    ∃ b' ∈ (update_scrape_progress d u c t st r).bloggers, b'.user_id = u0 := by
  obtain ⟨b, hb, hbu⟩ := h
  unfold update_scrape_progress
  simp only [List.mem_map]
  refine ⟨_, ⟨b, hb, rfl⟩, ?_⟩
  split <;> exact hbu

lemma exists_uid_update_status {d : DB} {u0 : String}
    (h : ∃ b ∈ d.bloggers, b.user_id = u0) (u st : String) :
    ∃ b' ∈ (update_status d u st).bloggers, b'.user_id = u0 := by
  obtain ⟨b, hb, hbu⟩ := h
  unfold update_status
  simp only [List.mem_map]
  refine ⟨_, ⟨b, hb, rfl⟩, ?_⟩
  split <;> exact hbu

/-- Claim C9: with a zero minimum-fans threshold, Phase 1 performs no
external fans lookup, every candidate qualifies (the qualified list is the
full target list), skipped_low_fans is 0 and the store is untouched. -/
theorem C9_zero_threshold_noop (db : DB) (targets : List Blogger)
    (fans_dict : String → Nat) :
    phase1_filter db targets 0 fans_dict =
      { qualified := targets, skipped_low_fans := 0, fans_lookups := 0, db := db } := rfl

/-- Claim C6: for all positive n (batch size) and m (per-entity item budget),
the computed crawler timeout equals clamp(int(n * (m*4 + 60) * 1.5), 300, 7200),
is monotone non-decreasing in both arguments, and lies in [300, 7200]. -/
theorem C6_timeout_clamped_monotone (n n' m m' : Nat)
    (hn : 1 ≤ n) (hm : 1 ≤ m) (hnn : n ≤ n') (hmm : m ≤ m') :
    single_batch_timeout n m = calculate_timeout n m
    ∧ calculate_timeout n m = specClamp (n * (m * 4 + 60) * 3 / 2) 300 7200
    ∧ calculate_timeout n m ≤ calculate_timeout n' m'
    ∧ 300 ≤ calculate_timeout n m
    ∧ calculate_timeout n m ≤ 7200 := by
  refine ⟨rfl, rfl, ?_, ?_, ?_⟩
  · unfold calculate_timeout
    simp only []
    have hmul : n * (m * 4 + 60) * 3 ≤ n' * (m' * 4 + 60) * 3 := by
      apply Nat.mul_le_mul_right
      exact Nat.mul_le_mul hnn (by omega)
    have hdiv : n * (m * 4 + 60) * 3 / 2 ≤ n' * (m' * 4 + 60) * 3 / 2 :=
      Nat.div_le_div_right hmul
    exact max_le_max (le_refl 300) (min_le_min hdiv (le_refl 7200))
  · exact Nat.le_max_left _ _
  · unfold calculate_timeout
    simp only []
    exact Nat.max_le.mpr ⟨by omega, Nat.min_le_right _ _⟩

/-- Witness for C6 at n = 1, m = 1, n' = 2, m' = 2. -/
theorem C6_timeout_clamped_monotone_witness :
    single_batch_timeout 1 1 = calculate_timeout 1 1
    ∧ calculate_timeout 1 1 = specClamp (1 * (1 * 4 + 60) * 3 / 2) 300 7200
    ∧ calculate_timeout 1 1 ≤ calculate_timeout 2 2
    ∧ 300 ≤ calculate_timeout 1 1
    ∧ calculate_timeout 1 1 ≤ 7200 :=
  C6_timeout_clamped_monotone 1 2 1 2 (by decide) (by decide) (by decide) (by decide)

/-- Claim C10: for a user id absent from the bloggers table,
get_scrape_progress returns the well-formed default progress record
(0 collected, target 100, status not_started, no failure reason) instead of
failing. -/
theorem C10_get_scrape_progress_default (db : DB) (uid : String)
    (h : get_blogger db uid = none) :
    get_scrape_progress db uid =
      { notes_collected := 0, notes_target := 100,
        scrape_status := "not_started", failure_reason := none } := by
  unfold get_scrape_progress
  rw [h]

/-- Witness for C10: the empty store has no blogger "u". -/
theorem C10_get_scrape_progress_default_witness :
    get_scrape_progress { bloggers := [], notes := [] } "u" =
      { notes_collected := 0, notes_target := 100,
        scrape_status := "not_started", failure_reason := none } :=
  C10_get_scrape_progress_default { bloggers := [], notes := [] } "u" rfl

lemma foldl_bloggers_preserve (f : DB → Blogger → DB) (u : String) (P : Blogger → Prop)
    (hpres : ∀ d b, (∀ x ∈ d.bloggers, x.user_id = u → P x) →
      ∀ x ∈ (f d b).bloggers, x.user_id = u → P x) :
    ∀ (l : List Blogger) (d : DB), (∀ x ∈ d.bloggers, x.user_id = u → P x) →
      ∀ x ∈ (l.foldl f d).bloggers, x.user_id = u → P x := by
  intro l
  induction l with
  | nil => intro d h; exact h
  | cons b rest ih =>
    intro d h
    rw [List.foldl_cons]
    exact ih (f d b) (hpres d b h)

lemma foldl_bloggers_establish (f : DB → Blogger → DB) (u : String) (P : Blogger → Prop)
    (hpres : ∀ d b, (∀ x ∈ d.bloggers, x.user_id = u → P x) →
      ∀ x ∈ (f d b).bloggers, x.user_id = u → P x)
    (hest : ∀ d b, b.user_id = u → ∀ x ∈ (f d b).bloggers, x.user_id = u → P x) :
    ∀ (l : List Blogger) (d : DB), (∃ q ∈ l, q.user_id = u) →
      ∀ x ∈ (l.foldl f d).bloggers, x.user_id = u → P x := by
  intro l
  induction l with
  | nil =>
    intro d h
    simp at h
  | cons b rest ih =>
    intro d h
    rw [List.foldl_cons]
    obtain ⟨q, hq, hqu⟩ := h
    rcases List.mem_cons.mp hq with rfl | hq'
    · exact foldl_bloggers_preserve f u P hpres rest (f d q) (hest d q hqu)
    · exact ih (f d b) ⟨q, hq', hqu⟩

lemma usp_step_preserve (u stw : String) (rsn : Option String) (c t : DB → Blogger → Nat) :
    ∀ (d : DB) (b : Blogger),
      (∀ x ∈ d.bloggers, x.user_id = u → x.scrape_status = stw ∧ x.failure_reason = rsn) →
      ∀ x ∈ (update_scrape_progress d b.user_id (c d b) (t d b) stw rsn).bloggers,
        x.user_id = u → x.scrape_status = stw ∧ x.failure_reason = rsn := by
  intro d b h x hx hxu
  unfold update_scrape_progress at hx
  simp only [List.mem_map] at hx
  obtain ⟨b0, hb0, hEq⟩ := hx
  by_cases hm : (b0.user_id == b.user_id) = true
  · rw [if_pos hm] at hEq
    subst hEq
    exact ⟨rfl, rfl⟩
  · rw [if_neg hm] at hEq
    subst hEq
    exact h b0 hb0 hxu

lemma usp_step_establish (u stw : String) (rsn : Option String) (c t : DB → Blogger → Nat) :
    ∀ (d : DB) (b : Blogger), b.user_id = u →
      ∀ x ∈ (update_scrape_progress d b.user_id (c d b) (t d b) stw rsn).bloggers,
        x.user_id = u → x.scrape_status = stw ∧ x.failure_reason = rsn := by
  intro d b hbu x hx hxu
  unfold update_scrape_progress at hx
  simp only [List.mem_map] at hx
  obtain ⟨b0, hb0, hEq⟩ := hx
  by_cases hm : (b0.user_id == b.user_id) = true
  · rw [if_pos hm] at hEq
    subst hEq
    exact ⟨rfl, rfl⟩
  · rw [if_neg hm] at hEq
    subst hEq
    exact absurd (beq_iff_eq.mpr (hxu.trans hbu.symm)) hm

lemma mark_batch_fail_sets (maxn : Nat) (reason : String) (u : String) :
    ∀ (qs : List Blogger) (d : DB), (∃ q ∈ qs, q.user_id = u) →
      ∀ x ∈ (mark_batch_fail maxn reason d qs).bloggers, x.user_id = u →
        x.scrape_status = "partial" ∧ x.failure_reason = some reason := by
  intro qs d h
  exact foldl_bloggers_establish _ u _
    (usp_step_preserve u "partial" (some reason)
      (fun d' b => (get_scrape_progress d' b.user_id).notes_collected) (fun _ _ => maxn))
    (usp_step_establish u "partial" (some reason)
      (fun d' b => (get_scrape_progress d' b.user_id).notes_collected) (fun _ _ => maxn))
    qs d h

lemma mark_in_progress_status (maxn : Nat) (u : String) :
    ∀ (qs : List Blogger) (d : DB), (∃ q ∈ qs, q.user_id = u) →
      ∀ x ∈ (mark_in_progress d qs maxn).bloggers, x.user_id = u →
        x.scrape_status = "in_progress" ∧ x.failure_reason = none := by
  intro qs d h
  exact foldl_bloggers_establish _ u _
    (usp_step_preserve u "in_progress" none
      (fun d' b => (get_scrape_progress d' b.user_id).notes_collected) (fun _ _ => maxn))
    (usp_step_establish u "in_progress" none
      (fun d' b => (get_scrape_progress d' b.user_id).notes_collected) (fun _ _ => maxn))
    qs d h

lemma ust_step_preserve_spfr (u stw : String) (rsn : Option String) :
    ∀ (d : DB) (b : Blogger),
      (∀ x ∈ d.bloggers, x.user_id = u → x.scrape_status = stw ∧ x.failure_reason = rsn) →
      ∀ x ∈ (update_status d b.user_id "error").bloggers,
        x.user_id = u → x.scrape_status = stw ∧ x.failure_reason = rsn := by
  intro d b h x hx hxu
  obtain ⟨b0, hb0, h1, _, _, h4, h5⟩ := update_status_mem_fields hx
  have hres := h b0 hb0 (h1.symm.trans hxu)
  exact ⟨h4.trans hres.1, h5.trans hres.2⟩

lemma ust_step_preserve_status (u : String) :
    ∀ (d : DB) (b : Blogger),
      (∀ x ∈ d.bloggers, x.user_id = u → x.status = "error") →
      ∀ x ∈ (update_status d b.user_id "error").bloggers,
        x.user_id = u → x.status = "error" := by
  intro d b h x hx hxu
  unfold update_status at hx
  simp only [List.mem_map] at hx
  obtain ⟨b0, hb0, hEq⟩ := hx
  by_cases hm : (b0.user_id == b.user_id) = true
  · rw [if_pos hm] at hEq
    subst hEq
    rfl
  · rw [if_neg hm] at hEq
    subst hEq
    exact h b0 hb0 hxu

lemma ust_step_establish_status (u : String) :
    ∀ (d : DB) (b : Blogger), b.user_id = u →
      ∀ x ∈ (update_status d b.user_id "error").bloggers,
        x.user_id = u → x.status = "error" := by
  intro d b hbu x hx hxu
  unfold update_status at hx
  simp only [List.mem_map] at hx
  obtain ⟨b0, hb0, hEq⟩ := hx
  by_cases hm : (b0.user_id == b.user_id) = true
  · rw [if_pos hm] at hEq
    subst hEq
    rfl
  · rw [if_neg hm] at hEq
    subst hEq
    exact absurd (beq_iff_eq.mpr (hxu.trans hbu.symm)) hm

lemma mark_batch_error_status (u : String) :
    ∀ (qs : List Blogger) (d : DB), (∃ q ∈ qs, q.user_id = u) →
      ∀ x ∈ (mark_batch_error d qs).bloggers, x.user_id = u → x.status = "error" := by
  intro qs d h
  exact foldl_bloggers_establish _ u _
    (ust_step_preserve_status u) (ust_step_establish_status u) qs d h

lemma mark_batch_error_preserve_spfr (u stw : String) (rsn : Option String) :
    ∀ (qs : List Blogger) (d : DB),
      (∀ x ∈ d.bloggers, x.user_id = u → x.scrape_status = stw ∧ x.failure_reason = rsn) →
      ∀ x ∈ (mark_batch_error d qs).bloggers, x.user_id = u →
        x.scrape_status = stw ∧ x.failure_reason = rsn := by
  intro qs d h
  exact foldl_bloggers_preserve _ u _ (ust_step_preserve_spfr u stw rsn) qs d h

lemma pending_fail_fold_fst (maxn : Nat) :
    ∀ (qs : List Blogger) (st : Stats) (d : DB),
      (qs.foldl (pending_fail_step maxn) (st, d)).1
        = { st with failed := st.failed + qs.length } := by
  intro qs
  induction qs with
  | nil =>
    intro st d
    cases st
    simp
  | cons q rest ih =>
    intro st d
    rw [List.foldl_cons]
    have hstep : pending_fail_step maxn (st, d) q
        = ({ st with failed := st.failed + 1 },
           update_scrape_progress d q.user_id
             (get_scrape_progress d q.user_id).notes_collected maxn
             "partial" (some "MediaCrawler batch failed")) := rfl
    rw [hstep, ih]
    cases st
    simp
    omega

lemma pending_fail_fold_snd (maxn : Nat) :
    ∀ (qs : List Blogger) (st : Stats) (d : DB),
      (qs.foldl (pending_fail_step maxn) (st, d)).2
        = mark_batch_fail maxn "MediaCrawler batch failed" d qs := by
  intro qs
  induction qs with
  | nil => intro st d; rfl
  | cons q rest ih =>
    intro st d
    rw [List.foldl_cons]
    have hstep : pending_fail_step maxn (st, d) q
        = ({ st with failed := st.failed + 1 },
           update_scrape_progress d q.user_id
             (get_scrape_progress d q.user_id).notes_collected maxn
             "partial" (some "MediaCrawler batch failed")) := rfl
    rw [hstep, ih]
    rfl

lemma specific_fail_fold_fst (maxn : Nat) :
    ∀ (qs : List Blogger) (st : ResumeStats) (d : DB),
      (qs.foldl (specific_fail_step maxn) (st, d)).1
        = { st with failed := st.failed + qs.length } := by
  intro qs
  induction qs with
  | nil =>
    intro st d
    cases st
    simp
  | cons q rest ih =>
    intro st d
    rw [List.foldl_cons]
    have hstep : specific_fail_step maxn (st, d) q
        = ({ st with failed := st.failed + 1 },
           update_scrape_progress d q.user_id
             (get_scrape_progress d q.user_id).notes_collected maxn
             "partial" (some "MediaCrawler batch failed")) := rfl
    rw [hstep, ih]
    cases st
    simp
    omega

lemma specific_fail_fold_snd (maxn : Nat) :
    ∀ (qs : List Blogger) (st : ResumeStats) (d : DB),
      (qs.foldl (specific_fail_step maxn) (st, d)).2
        = mark_batch_fail maxn "MediaCrawler batch failed" d qs := by
  intro qs
  induction qs with
  | nil => intro st d; rfl
  | cons q rest ih =>
    intro st d
    rw [List.foldl_cons]
    have hstep : specific_fail_step maxn (st, d) q
        = ({ st with failed := st.failed + 1 },
           update_scrape_progress d q.user_id
             (get_scrape_progress d q.user_id).notes_collected maxn
             "partial" (some "MediaCrawler batch failed")) := rfl
    rw [hstep, ih]
    rfl

lemma specific_nofile_fold_fst (maxn : Nat) :
    ∀ (qs : List Blogger) (st : ResumeStats) (d : DB),
      (qs.foldl (specific_nofile_step maxn) (st, d)).1
        = { st with failed := st.failed + qs.length } := by
  intro qs
  induction qs with
  | nil =>
    intro st d
    cases st
    simp
  | cons q rest ih =>
    intro st d
    rw [List.foldl_cons]
    have hstep : specific_nofile_step maxn (st, d) q
        = ({ st with failed := st.failed + 1 },
           update_scrape_progress d q.user_id
             (get_scrape_progress d q.user_id).notes_collected maxn
             "partial" (some "No result file")) := rfl
    rw [hstep, ih]
    cases st
    simp
    omega

lemma specific_nofile_fold_snd (maxn : Nat) :
    ∀ (qs : List Blogger) (st : ResumeStats) (d : DB),
      (qs.foldl (specific_nofile_step maxn) (st, d)).2
        = mark_batch_fail maxn "No result file" d qs := by
  intro qs
  induction qs with
  | nil => intro st d; rfl
  | cons q rest ih =>
    intro st d
    rw [List.foldl_cons]
    have hstep : specific_nofile_step maxn (st, d) q
        = ({ st with failed := st.failed + 1 },
           update_scrape_progress d q.user_id
             (get_scrape_progress d q.user_id).notes_collected maxn
             "partial" (some "No result file")) := rfl
    rw [hstep, ih]
    rfl

lemma pending_nofile_fold_fst :
    ∀ (qs : List Blogger) (st : Stats) (d : DB),
      (qs.foldl pending_nofile_step (st, d)).1
        = { st with failed := st.failed + qs.length } := by
  intro qs
  induction qs with
  | nil =>
    intro st d
    cases st
    simp
  | cons q rest ih =>
    intro st d
    rw [List.foldl_cons]
    have hstep : pending_nofile_step (st, d) q
        = ({ st with failed := st.failed + 1 }, update_status d q.user_id "error") := rfl
    rw [hstep, ih]
    cases st
    simp
    omega

lemma pending_nofile_fold_snd :
    ∀ (qs : List Blogger) (st : Stats) (d : DB),
      (qs.foldl pending_nofile_step (st, d)).2 = mark_batch_error d qs := by
  intro qs
  induction qs with
  | nil => intro st d; rfl
  | cons q rest ih =>
    intro st d
    rw [List.foldl_cons]
    have hstep : pending_nofile_step (st, d) q
        = ({ st with failed := st.failed + 1 }, update_status d q.user_id "error") := rfl
    rw [hstep, ih]
    rfl

/-- Claim C4: when the crawler invocation for a batch fails entirely (timeout,
non-zero return code or process error all make the invocation return False),
both batch operations still return a well-formed stats record: failed grows by
one per entity of the batch, scraped and notes_added (and the other counters)
are untouched, and every entity of the batch is stored as partial with the
failure reason MediaCrawler batch failed. -/
theorem C4_crawler_failure_batch (db : DB) (qs : List Blogger) (maxn : Nat)
    (st : Stats) (rst : ResumeStats) (hrem : (specific_pre db qs maxn).1 ≠ 0) :
    (scrape_pending_phase2 db qs maxn st .failedRun).1
        = { st with failed := st.failed + qs.length }
    ∧ (scrape_specific_run db qs maxn rst .failedRun).1
        = { rst with failed := rst.failed + qs.length }
    ∧ (∀ u, (∃ q ∈ qs, q.user_id = u) →
        ∀ x ∈ (scrape_pending_phase2 db qs maxn st .failedRun).2.bloggers,
          x.user_id = u →
            x.scrape_status = "partial" ∧ x.failure_reason = some "MediaCrawler batch failed")
    ∧ (∀ u, (∃ q ∈ qs, q.user_id = u) →
        ∀ x ∈ (scrape_specific_run db qs maxn rst .failedRun).2.bloggers,
          x.user_id = u →
            x.scrape_status = "partial" ∧ x.failure_reason = some "MediaCrawler batch failed") := by
  have hp : scrape_pending_phase2 db qs maxn st .failedRun
      = qs.foldl (pending_fail_step maxn) (st, mark_in_progress db qs maxn) := rfl
  have hs : scrape_specific_run db qs maxn rst .failedRun
      = qs.foldl (specific_fail_step maxn) (rst, (specific_pre db qs maxn).2) := by
    simp only [scrape_specific_run]
    rw [if_neg hrem]
  refine ⟨?_, ?_, ?_, ?_⟩
  · rw [hp, pending_fail_fold_fst]
  · rw [hs, specific_fail_fold_fst]
  · intro u hu x hx hxu
    rw [hp, pending_fail_fold_snd] at hx
    exact mark_batch_fail_sets maxn "MediaCrawler batch failed" u qs _ hu x hx hxu
  · intro u hu x hx hxu
    rw [hs, specific_fail_fold_snd] at hx
    exact mark_batch_fail_sets maxn "MediaCrawler batch failed" u qs _ hu x hx hxu

/-- Witness for C4 at a one-blogger batch with fresh stats. -/
theorem C4_crawler_failure_batch_witness :
    (scrape_pending_phase2 wDB [wBlogger] 100 wStats .failedRun).1
      = { wStats with failed := wStats.failed + [wBlogger].length }
    ∧ (scrape_specific_run wDB [wBlogger] 100 wResumeStats .failedRun).1
      = { wResumeStats with failed := wResumeStats.failed + [wBlogger].length }
    ∧ (∀ u, (∃ q ∈ [wBlogger], Blogger.user_id q = u) →
        ∀ x ∈ (scrape_pending_phase2 wDB [wBlogger] 100 wStats .failedRun).2.bloggers,
          x.user_id = u →
            x.scrape_status = "partial" ∧ x.failure_reason = some "MediaCrawler batch failed")
    ∧ (∀ u, (∃ q ∈ [wBlogger], Blogger.user_id q = u) →
        ∀ x ∈ (scrape_specific_run wDB [wBlogger] 100 wResumeStats .failedRun).2.bloggers,
          x.user_id = u →
            x.scrape_status = "partial" ∧ x.failure_reason = some "MediaCrawler batch failed") :=
  C4_crawler_failure_batch wDB [wBlogger] 100 wStats wResumeStats (by decide)

/-- Counterexample for C2 as stated: after a successful crawler run with no
locatable output file, run_batch_collection (scrape_pending_bloggers) does
not mark its entities partial with reason no result file; the single
entity of this batch keeps scrape_status in_progress, gets its status column
set to error, and carries no failure reason. -/
theorem C2_no_result_file_counterexample :
    ((scrape_pending_phase2 wDB [wBlogger] 100 wStats .noResultFile).2.bloggers.map
        (fun b => (b.scrape_status, b.status, b.failure_reason)))
      = [("in_progress", "error", none)]
    ∧ ("in_progress" : String) ≠ "partial" := by
  constructor
  · rfl
  · decide

/-- Claim C2 amended: on a missing result file, resume (scrape_specific_bloggers)
marks every entity of the run partial with reason No result file and counts
one failure per entity; run_batch_collection (scrape_pending_bloggers) instead
leaves scrape_status at in_progress with no failure reason, sets the blogger
status column to error, and also counts one failure per entity. -/
theorem C2_no_result_file_amended (db : DB) (qs : List Blogger) (maxn : Nat)
    (st : Stats) (rst : ResumeStats) (hrem : (specific_pre db qs maxn).1 ≠ 0) :
    (scrape_specific_run db qs maxn rst .noResultFile).1
        = { rst with failed := rst.failed + qs.length }
    ∧ (∀ u, (∃ q ∈ qs, q.user_id = u) →
        ∀ x ∈ (scrape_specific_run db qs maxn rst .noResultFile).2.bloggers,
          x.user_id = u →
            x.scrape_status = "partial" ∧ x.failure_reason = some "No result file")
    ∧ (scrape_pending_phase2 db qs maxn st .noResultFile).1
        = { st with failed := st.failed + qs.length }
    ∧ (∀ u, (∃ q ∈ qs, q.user_id = u) →
        ∀ x ∈ (scrape_pending_phase2 db qs maxn st .noResultFile).2.bloggers,
          x.user_id = u →
            x.status = "error" ∧ x.scrape_status = "in_progress"
              ∧ x.failure_reason = none) := by
  have hp : scrape_pending_phase2 db qs maxn st .noResultFile
      = qs.foldl pending_nofile_step (st, mark_in_progress db qs maxn) := rfl
  have hs : scrape_specific_run db qs maxn rst .noResultFile
      = qs.foldl (specific_nofile_step maxn) (rst, (specific_pre db qs maxn).2) := by
    simp only [scrape_specific_run]
    rw [if_neg hrem]
  refine ⟨?_, ?_, ?_, ?_⟩
  · rw [hs, specific_nofile_fold_fst]
  · intro u hu x hx hxu
    rw [hs, specific_nofile_fold_snd] at hx
    exact mark_batch_fail_sets maxn "No result file" u qs _ hu x hx hxu
  · rw [hp, pending_nofile_fold_fst]
  · intro u hu x hx hxu
    rw [hp, pending_nofile_fold_snd] at hx
    have hpre := mark_in_progress_status maxn u qs db hu
    have h2 := mark_batch_error_preserve_spfr u "in_progress" none qs _ hpre x hx hxu
    exact ⟨mark_batch_error_status u qs _ hu x hx hxu, h2.1, h2.2⟩

/-- Witness for the amended C2 at a one-blogger batch with fresh stats. -/
theorem C2_no_result_file_amended_witness :
    (scrape_specific_run wDB [wBlogger] 100 wResumeStats .noResultFile).1
      = { wResumeStats with failed := wResumeStats.failed + [wBlogger].length }
    ∧ (∀ u, (∃ q ∈ [wBlogger], Blogger.user_id q = u) →
        ∀ x ∈ (scrape_specific_run wDB [wBlogger] 100 wResumeStats .noResultFile).2.bloggers,
          x.user_id = u →
            x.scrape_status = "partial" ∧ x.failure_reason = some "No result file")
    ∧ (scrape_pending_phase2 wDB [wBlogger] 100 wStats .noResultFile).1
      = { wStats with failed := wStats.failed + [wBlogger].length }
    ∧ (∀ u, (∃ q ∈ [wBlogger], Blogger.user_id q = u) →
        ∀ x ∈ (scrape_pending_phase2 wDB [wBlogger] 100 wStats .noResultFile).2.bloggers,
          x.user_id = u →
            x.status = "error" ∧ x.scrape_status = "in_progress"
              ∧ x.failure_reason = none) :=
  C2_no_result_file_amended wDB [wBlogger] 100 wStats wResumeStats (by decide)

lemma process_blogger_pending_db_reached (maxn : Nat) (all_notes : List Note)
    (s : PendingStep) (b : Blogger)
    (hc : (get_scrape_progress s.db b.user_id).notes_collected < maxn)
    (hne : notes_for_user all_notes b.user_id ≠ [])
    (htot : count_notes_by_user (pending_merged maxn all_notes s b).1 b.user_id ≥ maxn) :
    (process_blogger_pending maxn all_notes s b).db
      = update_status
          (update_scrape_progress (pending_merged maxn all_notes s b).1 b.user_id
            (count_notes_by_user (pending_merged maxn all_notes s b).1 b.user_id)
            maxn "completed" none)
          b.user_id "scraped" := by
  simp only [process_blogger_pending]
  rw [if_neg (not_le.mpr hc), if_neg hne, if_pos htot]

lemma process_blogger_pending_db_exhaustion (maxn : Nat) (all_notes : List Note)
    (s : PendingStep) (b : Blogger)
    (hc : (get_scrape_progress s.db b.user_id).notes_collected < maxn)
    (hne : notes_for_user all_notes b.user_id ≠ [])
    (htot : count_notes_by_user (pending_merged maxn all_notes s b).1 b.user_id < maxn)
    (hlt : (notes_for_user all_notes b.user_id).length
        < maxn - (get_scrape_progress s.db b.user_id).notes_collected) :
    (process_blogger_pending maxn all_notes s b).db
      = update_status
          (update_scrape_progress (pending_merged maxn all_notes s b).1 b.user_id
            (count_notes_by_user (pending_merged maxn all_notes s b).1 b.user_id)
            (count_notes_by_user (pending_merged maxn all_notes s b).1 b.user_id)
            "completed" none)
          b.user_id "scraped" := by
  simp only [process_blogger_pending]
  rw [if_neg (not_le.mpr hc), if_neg hne, if_neg (not_le.mpr htot), if_pos hlt]

lemma process_blogger_pending_db_below (maxn : Nat) (all_notes : List Note)
    (s : PendingStep) (b : Blogger)
    (hc : (get_scrape_progress s.db b.user_id).notes_collected < maxn)
    (hne : notes_for_user all_notes b.user_id ≠ [])
    (htot : count_notes_by_user (pending_merged maxn all_notes s b).1 b.user_id < maxn)
    (hge : ¬ (notes_for_user all_notes b.user_id).length
        < maxn - (get_scrape_progress s.db b.user_id).notes_collected) :
    (process_blogger_pending maxn all_notes s b).db
      = update_scrape_progress (pending_merged maxn all_notes s b).1 b.user_id
          (count_notes_by_user (pending_merged maxn all_notes s b).1 b.user_id)
          maxn "partial" none := by
  simp only [process_blogger_pending]
  rw [if_neg (not_le.mpr hc), if_neg hne, if_neg (not_le.mpr htot), if_neg hge]

lemma process_blogger_specific_db_reached (maxn : Nat) (all_notes : List Note)
    (s : SpecificStep) (b : Blogger)
    (hne : notes_for_user all_notes b.user_id ≠ [])
    (htot : count_notes_by_user (specific_merged all_notes s b).1 b.user_id ≥ maxn) :
    (process_blogger_specific maxn all_notes s b).db
      = update_status
          (update_scrape_progress (specific_merged all_notes s b).1 b.user_id
            (count_notes_by_user (specific_merged all_notes s b).1 b.user_id)
            maxn "completed" none)
          b.user_id "scraped" := by
  simp only [process_blogger_specific]
  rw [if_neg hne, if_pos htot]

lemma process_blogger_specific_db_below (maxn : Nat) (all_notes : List Note)
    (s : SpecificStep) (b : Blogger)
    (hne : notes_for_user all_notes b.user_id ≠ [])
    (htot : count_notes_by_user (specific_merged all_notes s b).1 b.user_id < maxn) :
    (process_blogger_specific maxn all_notes s b).db
      = update_scrape_progress (specific_merged all_notes s b).1 b.user_id
          (count_notes_by_user (specific_merged all_notes s b).1 b.user_id)
          maxn "partial" none := by
  have hlen : ¬ (notes_for_user all_notes b.user_id).length = 0 := by
    intro h0
    exact hne (List.length_eq_zero.mp h0)
  simp only [process_blogger_specific]
  rw [if_neg hne, if_neg (not_le.mpr htot), if_neg hlen]

lemma bloggers_pending_merged (maxn : Nat) (all_notes : List Note)
    (s : PendingStep) (b : Blogger) :
    (pending_merged maxn all_notes s b).1.bloggers
      = (update_scrape_progress s.db b.user_id
          (get_scrape_progress s.db b.user_id).notes_collected maxn
          "in_progress" none).bloggers :=
  bloggers_insert_notes_fold _ _

lemma bloggers_specific_merged (all_notes : List Note) (s : SpecificStep) (b : Blogger) :
    (specific_merged all_notes s b).1.bloggers = s.db.bloggers :=
  bloggers_insert_notes_fold _ _

/-- Counterexample for C1 as stated: an entity whose resume run returned one
new note while five were still needed (one stored afterwards, target five) is
left partial with target unchanged by scrape_specific_bloggers, not completed
with the target lowered to one. -/
theorem C1_source_exhaustion_retarget_counterexample :
    ((process_blogger_specific 5 [wNote]
        { db := wDB, stats := wResumeStats } wBlogger).db.bloggers.map
          (fun b => (b.scrape_status, b.notes_target)))
      = [("partial", 5)]
    ∧ (notes_for_user [wNote] wBlogger.user_id).length = 1
    ∧ (get_scrape_progress wDB wBlogger.user_id).notes_collected = 0
    ∧ count_notes_by_user (specific_merged [wNote]
        { db := wDB, stats := wResumeStats } wBlogger).1 wBlogger.user_id = 1
    ∧ (("partial", (5 : Nat)) : String × Nat) ≠ ("completed", (1 : Nat)) := by
  refine ⟨rfl, rfl, rfl, rfl, by decide⟩

/-- Claim C1 amended: after a successful run, for an entity still short of its
target whose newly returned notes number fewer than still needed,
run_batch_collection (scrape_pending_bloggers) marks it completed and lowers
its target to the re-derived stored count; resume (scrape_specific_bloggers)
instead leaves it partial with the target unchanged (it lowers the target
only on a zero-note yield, impossible for an entity present in the result
file). -/
theorem C1_source_exhaustion_retarget (maxn : Nat) (all_notes : List Note)
    (sp : PendingStep) (bp : Blogger) (ss : SpecificStep) (bs : Blogger)
    (hpc : (get_scrape_progress sp.db bp.user_id).notes_collected < maxn)
    (hpne : notes_for_user all_notes bp.user_id ≠ [])
    (hplt : (notes_for_user all_notes bp.user_id).length
        < maxn - (get_scrape_progress sp.db bp.user_id).notes_collected)
    (hptot : count_notes_by_user (pending_merged maxn all_notes sp bp).1 bp.user_id < maxn)
    (hpex : ∃ b0 ∈ sp.db.bloggers, b0.user_id = bp.user_id)
    (hsc : (get_scrape_progress ss.db bs.user_id).notes_collected < maxn)
    (hsne : notes_for_user all_notes bs.user_id ≠ [])
    (hslt : (notes_for_user all_notes bs.user_id).length
        < maxn - (get_scrape_progress ss.db bs.user_id).notes_collected)
    (hstot : count_notes_by_user (specific_merged all_notes ss bs).1 bs.user_id < maxn)
    (hsex : ∃ b0 ∈ ss.db.bloggers, b0.user_id = bs.user_id) :
    ((∃ x ∈ (process_blogger_pending maxn all_notes sp bp).db.bloggers,
        x.user_id = bp.user_id)
     ∧ ∀ x ∈ (process_blogger_pending maxn all_notes sp bp).db.bloggers,
        x.user_id = bp.user_id →
          x.scrape_status = "completed"
          ∧ x.notes_target
              = count_notes_by_user (pending_merged maxn all_notes sp bp).1 bp.user_id
          ∧ x.notes_collected
              = count_notes_by_user (pending_merged maxn all_notes sp bp).1 bp.user_id)
    ∧ ((∃ x ∈ (process_blogger_specific maxn all_notes ss bs).db.bloggers,
        x.user_id = bs.user_id)
     ∧ ∀ x ∈ (process_blogger_specific maxn all_notes ss bs).db.bloggers,
        x.user_id = bs.user_id →
          x.scrape_status = "partial" ∧ x.notes_target = maxn
          ∧ x.notes_collected
              = count_notes_by_user (specific_merged all_notes ss bs).1 bs.user_id) := by
  constructor
  · rw [process_blogger_pending_db_exhaustion maxn all_notes sp bp hpc hpne hptot hplt]
    constructor
    · have hex1 := exists_uid_update_scrape_progress hpex bp.user_id
        (get_scrape_progress sp.db bp.user_id).notes_collected maxn "in_progress" none
      have hex2 : ∃ b' ∈ (pending_merged maxn all_notes sp bp).1.bloggers,
          b'.user_id = bp.user_id := by
        rw [bloggers_pending_merged]
        exact hex1
      exact exists_uid_update_status
        (exists_uid_update_scrape_progress hex2 bp.user_id _ _ "completed" none)
        bp.user_id "scraped"
    · intro x hx hxu
      obtain ⟨b0, hb0, h1, h2, h3, h4, _⟩ := update_status_mem_fields hx
      have hfields := update_scrape_progress_mem_fields hb0 (h1.symm.trans hxu)
      exact ⟨h4.trans hfields.2.2.1, h3.trans hfields.2.1, h2.trans hfields.1⟩
  · rw [process_blogger_specific_db_below maxn all_notes ss bs hsne hstot]
    constructor
    · have hex2 : ∃ b' ∈ (specific_merged all_notes ss bs).1.bloggers,
          b'.user_id = bs.user_id := by
        rw [bloggers_specific_merged]
        exact hsex
      exact exists_uid_update_scrape_progress hex2 bs.user_id _ _ "partial" none
    · intro x hx hxu
      have hfields := update_scrape_progress_mem_fields hx hxu
      exact ⟨hfields.2.2.1, hfields.2.1, hfields.1⟩

/-- Witness for the amended C1: one blogger needing five notes, the run
returns a single new note. -/
theorem C1_source_exhaustion_retarget_witness :
    ((∃ x ∈ (process_blogger_pending 5 [wNote]
          { db := wDB, stats := wStats } wBlogger).db.bloggers,
        x.user_id = wBlogger.user_id)
     ∧ ∀ x ∈ (process_blogger_pending 5 [wNote]
          { db := wDB, stats := wStats } wBlogger).db.bloggers,
        x.user_id = wBlogger.user_id →
          x.scrape_status = "completed"
          ∧ x.notes_target = count_notes_by_user
              (pending_merged 5 [wNote] { db := wDB, stats := wStats } wBlogger).1
              wBlogger.user_id
          ∧ x.notes_collected = count_notes_by_user
              (pending_merged 5 [wNote] { db := wDB, stats := wStats } wBlogger).1
              wBlogger.user_id)
    ∧ ((∃ x ∈ (process_blogger_specific 5 [wNote]
          { db := wDB, stats := wResumeStats } wBlogger).db.bloggers,
        x.user_id = wBlogger.user_id)
     ∧ ∀ x ∈ (process_blogger_specific 5 [wNote]
          { db := wDB, stats := wResumeStats } wBlogger).db.bloggers,
        x.user_id = wBlogger.user_id →
          x.scrape_status = "partial" ∧ x.notes_target = 5
          ∧ x.notes_collected = count_notes_by_user
              (specific_merged [wNote] { db := wDB, stats := wResumeStats } wBlogger).1
              wBlogger.user_id) :=
  C1_source_exhaustion_retarget 5 [wNote] { db := wDB, stats := wStats } wBlogger
    { db := wDB, stats := wResumeStats } wBlogger
    (by decide) (by decide) (by decide) (by decide) (by decide)
    (by decide) (by decide) (by decide) (by decide) (by decide)

/-- Claim C3: in the reconciliation pass of both batch operations, the
notes_collected value stored for an entity found in the result file equals
the count of note rows actually stored for it in the final store, re-derived
through count_notes_by_user, not the number of notes the crawler returned. -/
theorem C3_collected_count_rederived (maxn : Nat) (all_notes : List Note)
    (sp : PendingStep) (bp : Blogger) (ss : SpecificStep) (bs : Blogger)
    (hpc : (get_scrape_progress sp.db bp.user_id).notes_collected < maxn)
    (hpne : notes_for_user all_notes bp.user_id ≠ [])
    (hsne : notes_for_user all_notes bs.user_id ≠ []) :
    (∀ x ∈ (process_blogger_pending maxn all_notes sp bp).db.bloggers,
        x.user_id = bp.user_id →
          x.notes_collected = count_notes_by_user
            (process_blogger_pending maxn all_notes sp bp).db bp.user_id)
    ∧ (∀ x ∈ (process_blogger_specific maxn all_notes ss bs).db.bloggers,
        x.user_id = bs.user_id →
          x.notes_collected = count_notes_by_user
            (process_blogger_specific maxn all_notes ss bs).db bs.user_id) := by
  constructor
  · by_cases htot : count_notes_by_user (pending_merged maxn all_notes sp bp).1 bp.user_id
        ≥ maxn
    · rw [process_blogger_pending_db_reached maxn all_notes sp bp hpc hpne htot]
      intro x hx hxu
      obtain ⟨b0, hb0, h1, h2, _, _, _⟩ := update_status_mem_fields hx
      have hfields := update_scrape_progress_mem_fields hb0 (h1.symm.trans hxu)
      exact h2.trans hfields.1
    · by_cases hlt : (notes_for_user all_notes bp.user_id).length
          < maxn - (get_scrape_progress sp.db bp.user_id).notes_collected
      · rw [process_blogger_pending_db_exhaustion maxn all_notes sp bp hpc hpne
          (by omega) hlt]
        intro x hx hxu
        obtain ⟨b0, hb0, h1, h2, _, _, _⟩ := update_status_mem_fields hx
        have hfields := update_scrape_progress_mem_fields hb0 (h1.symm.trans hxu)
        exact h2.trans hfields.1
      · rw [process_blogger_pending_db_below maxn all_notes sp bp hpc hpne
          (by omega) hlt]
        intro x hx hxu
        have hfields := update_scrape_progress_mem_fields hx hxu
        exact hfields.1
  · by_cases htot : count_notes_by_user (specific_merged all_notes ss bs).1 bs.user_id
        ≥ maxn
    · rw [process_blogger_specific_db_reached maxn all_notes ss bs hsne htot]
      intro x hx hxu
      obtain ⟨b0, hb0, h1, h2, _, _, _⟩ := update_status_mem_fields hx
      have hfields := update_scrape_progress_mem_fields hb0 (h1.symm.trans hxu)
      exact h2.trans hfields.1
    · rw [process_blogger_specific_db_below maxn all_notes ss bs hsne (by omega)]
      intro x hx hxu
      have hfields := update_scrape_progress_mem_fields hx hxu
      exact hfields.1

/-- Witness for C3 at the one-blogger, one-returned-note run. -/
theorem C3_collected_count_rederived_witness :
    (∀ x ∈ (process_blogger_pending 5 [wNote]
          { db := wDB, stats := wStats } wBlogger).db.bloggers,
        x.user_id = wBlogger.user_id →
          x.notes_collected = count_notes_by_user
            (process_blogger_pending 5 [wNote]
              { db := wDB, stats := wStats } wBlogger).db wBlogger.user_id)
    ∧ (∀ x ∈ (process_blogger_specific 5 [wNote]
          { db := wDB, stats := wResumeStats } wBlogger).db.bloggers,
        x.user_id = wBlogger.user_id →
          x.notes_collected = count_notes_by_user
            (process_blogger_specific 5 [wNote]
              { db := wDB, stats := wResumeStats } wBlogger).db wBlogger.user_id) :=
  C3_collected_count_rederived 5 [wNote] { db := wDB, stats := wStats } wBlogger
    { db := wDB, stats := wResumeStats } wBlogger (by decide) (by decide) (by decide)

lemma big_ids : get_note_ids_by_user bigDB "u1" = (List.range 1001).map Nat.repr := by
  unfold get_note_ids_by_user bigDB bigNotes
  rw [List.filter_eq_self.mpr ?_]
  · rw [List.map_map]
    rfl
  · intro x hx
    obtain ⟨i, _, rfl⟩ := List.mem_map.mp hx
    rfl

/-- Counterexample for C8 as stated: in a store where one entity owns 1001
notes, the truncated exclusion list keeps the first 1000 identifiers of the
un-ordered SELECT (insertion order), so the most recently stored identifier
(the numeral 1000) is stored but dropped, the oldest (the numeral 0) is kept,
and the retained set is not the most-recent 1000. -/
theorem C8_truncation_recency_counterexample :
    1000 < (get_note_ids_by_user bigDB "u1").length
    ∧ Nat.repr 1000 ∈ get_note_ids_by_user bigDB "u1"
    ∧ Nat.repr 1000 ∉ truncate_exclude_note_ids (get_note_ids_by_user bigDB "u1")
    ∧ Nat.repr 0 ∈ truncate_exclude_note_ids (get_note_ids_by_user bigDB "u1")
    ∧ truncate_exclude_note_ids (get_note_ids_by_user bigDB "u1")
        ≠ (get_note_ids_by_user bigDB "u1").drop
            ((get_note_ids_by_user bigDB "u1").length - 1000) := by
  have hids := big_ids
  have hlen : (get_note_ids_by_user bigDB "u1").length = 1001 := by
    rw [hids]
    simp
  have htr : truncate_exclude_note_ids (get_note_ids_by_user bigDB "u1")
      = (List.range 1000).map Nat.repr := by
    rw [hids]
    unfold truncate_exclude_note_ids
    rw [← List.map_take, List.take_range]
    rw [show min 1000 1001 = 1000 from by omega]
  have hnm : Nat.repr 1000 ∉ (List.range 1000).map Nat.repr := by
    intro hmem
    obtain ⟨i, hi, hirepr⟩ := List.mem_map.mp hmem
    have hilt : i < 1000 := List.mem_range.mp hi
    have hpow : (10 : Nat) ^ 3 = 1000 := by norm_num
    have hle : (Nat.repr i).length ≤ 3 := Nat.repr_length i 3 (by omega) (by omega)
    have h4 : (Nat.repr 1000).length = 4 := rfl
    rw [hirepr, h4] at hle
    omega
  refine ⟨by omega, ?_, ?_, ?_, ?_⟩
  · rw [hids]
    exact List.mem_map.mpr ⟨1000, List.mem_range.mpr (by omega), rfl⟩
  · rw [htr]
    exact hnm
  · rw [htr]
    exact List.mem_map.mpr ⟨0, List.mem_range.mpr (by omega), rfl⟩
  · intro heq
    apply hnm
    rw [← htr, heq, hlen, show (1001 - 1000 : Nat) = 1 from rfl, hids,
      List.range_succ, List.map_append, List.drop_append_of_le_length (by simp)]
    exact List.mem_append_right _ (by simp)

/-- Claim C8 amended: a freshly inserted (most recent) note identifier is
appended at the end of the exclusion list returned for its owner, and once
the owner already has at least 1000 stored identifiers, truncation drops it:
the retained identifiers are the oldest-stored prefix of the table-scan
order, not the most recently collected items. -/
theorem C8_truncation_oldest_first (db : DB) (n : Note) (u : String)
    (hty : n.type = "video" ∨ n.type = "image")
    (hfresh : n.note_id ∉ db.notes.map Note.note_id)
    (hu : n.user_id = u) :
    get_note_ids_by_user (insert_note db n).1 u = get_note_ids_by_user db u ++ [n.note_id]
    ∧ (1000 ≤ (get_note_ids_by_user db u).length →
        n.note_id ∉ truncate_exclude_note_ids
          (get_note_ids_by_user (insert_note db n).1 u)) := by
  have hnotes : (insert_note db n).1.notes = db.notes ++ [n] := by
    unfold insert_note
    rw [if_pos hty]
    show db.notes.filter (fun m => m.note_id != n.note_id) ++ [n] = db.notes ++ [n]
    have hself : db.notes.filter (fun m => m.note_id != n.note_id) = db.notes := by
      apply List.filter_eq_self.mpr
      intro m hm
      exact bne_iff_ne.mpr (fun heq => hfresh (List.mem_map.mpr ⟨m, hm, heq⟩))
    rw [hself]
  have hids : get_note_ids_by_user (insert_note db n).1 u
      = get_note_ids_by_user db u ++ [n.note_id] := by
    unfold get_note_ids_by_user
    rw [hnotes, List.filter_append, List.map_append]
    have hfn : [n].filter (fun m => m.user_id == u) = [n] := by
      simp [hu]
    rw [hfn]
    rfl
  refine ⟨hids, ?_⟩
  intro hlen hmem
  rw [hids] at hmem
  unfold truncate_exclude_note_ids at hmem
  rw [List.take_append_of_le_length hlen] at hmem
  have hmem2 : n.note_id ∈ get_note_ids_by_user db u := List.take_subset _ _ hmem
  unfold get_note_ids_by_user at hmem2
  obtain ⟨m, hm, hmid⟩ := List.mem_map.mp hmem2
  exact hfresh (List.mem_map.mpr ⟨m, List.mem_of_mem_filter hm, hmid⟩)

/-- Witness for the amended C8: inserting a fresh note into the 1001-note
store appends its id to the exclusion list, and truncation drops it. -/
theorem C8_truncation_oldest_first_witness :
    (get_note_ids_by_user (insert_note bigDB wNoteLong).1 "u1"
        = get_note_ids_by_user bigDB "u1" ++ [wNoteLong.note_id])
    ∧ (1000 ≤ (get_note_ids_by_user bigDB "u1").length →
        wNoteLong.note_id ∉ truncate_exclude_note_ids
          (get_note_ids_by_user (insert_note bigDB wNoteLong).1 "u1")) :=
  C8_truncation_oldest_first bigDB wNoteLong "u1" (Or.inr rfl)
    (by
      intro hmem
      obtain ⟨m, hm, hmid⟩ := List.mem_map.mp hmem
      rw [show bigDB.notes = bigNotes from rfl] at hm
      unfold bigNotes at hm
      obtain ⟨i, hi, rfl⟩ := List.mem_map.mp hm
      have hilt : i < 1001 := List.mem_range.mp hi
      have hpow : (10 : Nat) ^ 4 = 10000 := by norm_num
      have hle : (Nat.repr i).length ≤ 4 := Nat.repr_length i 4 (by omega) (by omega)
      have h5 : Nat.repr i = "abcde" := hmid
      rw [h5] at hle
      exact absurd hle (by decide))
    rfl

end RedLens
